import Mathlib

/-!
Verification of `threatscrape.py`: a linear pipeline
(load config → expand keywords → build query → paginate search → write output).

We shallowly embed the Python code. JSON values are modelled by an inductive
`Json`; Python dictionary/list operations (`in`, indexing, `.get`, iteration)
are modelled as `Except PyErr`-valued functions so that uncaught Python
exceptions become explicit `.error` results. Network requests are modelled by
outcome parameters (`RequestOutcome`, `PageOutcome`): a function from the run
to what each HTTP call would have returned.
-/

/-- Python exceptions that the embedded fragments can raise and that the
source code does not catch (only `requests.exceptions.RequestException` is
ever caught). -/
inductive PyErr where
  | keyError
  | indexError
  | typeError
  | attributeError
  deriving DecidableEq

/-- JSON values, as produced by `response.json()` / consumed by `json.dump`. -/
inductive Json where
  | null
  | bool (b : Bool)
  | num (n : Int)
  | str (s : String)
  | arr (xs : List Json)
  | obj (kvs : List (String × Json))

/-- Python truthiness of `config.get(k)` for a credential: `None` (key absent)
and the empty string are falsy; `not x` in the source is `pyFalsy x`. -/
def pyFalsy : Option String → Bool
  | none => true
  | some s => s.isEmpty

/-- Whether the character list `n` is an initial segment of `h`. -/
def leadsWith : List Char → List Char → Bool
  | [], _ => true
  | _ :: _, [] => false
  | a :: as, b :: bs => a = b && leadsWith as bs

/-- Whether the character list `n` occurs contiguously inside `h`
(Python `n in h` for strings). -/
def hasSub (n : List Char) : List Char → Bool
  | [] => n.isEmpty
  | c :: rest => leadsWith n (c :: rest) || hasSub n rest

/-- Python equality of a JSON value against a string literal: only an equal
string compares equal (numbers, booleans, `None`, containers do not). -/
def jsonEqStr (j : Json) (s : String) : Bool :=
  match j with
  | .str t => t = s
  | _ => false

/-- Python `key in data` on a JSON value: key membership for a dict, element
membership for a list, substring test for a string, `TypeError` otherwise. -/
def jsonIn (key : String) (j : Json) : Except PyErr Bool :=
  match j with
  | .obj kvs => .ok (kvs.any (fun kv => kv.1 = key))
  | .arr xs => .ok (xs.any (fun x => jsonEqStr x key))
  | .str s => .ok (hasSub key.toList s.toList)
  | _ => .error .typeError

/-- Python `data[key]` with a string key: dict lookup (`KeyError` when the
key is absent), `TypeError` on any non-dict value. -/
def jsonIndexStr (j : Json) (key : String) : Except PyErr Json :=
  match j with
  | .obj kvs =>
      match kvs.find? (fun kv => kv.1 = key) with
      | some kv => .ok kv.2
      | none => .error .keyError
  | _ => .error .typeError

/-- Python `data[i]` with a non-negative integer index: list element
(`IndexError` out of range), one-character string for a string, `KeyError`
for a dict (JSON dicts have only string keys), `TypeError` otherwise. -/
def jsonIndexNat (j : Json) (i : Nat) : Except PyErr Json :=
  match j with
  | .arr xs =>
      match xs.get? i with
      | some x => .ok x
      | none => .error .indexError
  | .str s =>
      match s.toList.get? i with
      | some c => .ok (.str (String.singleton c))
      | none => .error .indexError
  | .obj _ => .error .keyError
  | _ => .error .typeError

/-- Python iteration over a JSON value (as used by `list.extend`): the
elements of a list, the characters of a string, the keys of a dict;
`TypeError` on `None`, booleans and numbers. -/
def pyIter (j : Json) : Except PyErr (List Json) :=
  match j with
  | .arr xs => .ok xs
  | .str s => .ok (s.toList.map (fun c => .str (String.singleton c)))
  | .obj kvs => .ok (kvs.map (fun kv => .str kv.1))
  | _ => .error .typeError

/-- Outcome of a single HTTP request made through `requests`: `failure`
stands for any raised `requests.exceptions.RequestException` (timeout,
non-2xx via `raise_for_status`, network error), `success data` for a 2xx
response whose body parsed to `data`. -/
inductive RequestOutcome where
  | failure
  | success (data : Json)

/-- The condition `"candidates" in data and "parts" in
data["candidates"][0]["content"]` of `get_related_keywords`, with Python's
short-circuit `and` and exception behaviour. -/
def geminiGuard (data : Json) : Except PyErr Bool := do
  let b ← jsonIn "candidates" data
  if b then
    let cands ← jsonIndexStr data "candidates"
    let c0 ← jsonIndexNat cands 0
    let content ← jsonIndexStr c0 "content"
    jsonIn "parts" content
  else
    pure false

/-- The extraction `data["candidates"][0]["content"]["parts"][0]["text"]`
followed by `.split` (which raises `AttributeError` on a non-string). -/
def geminiExtract (data : Json) : Except PyErr String := do
  let cands ← jsonIndexStr data "candidates"
  let c0 ← jsonIndexNat cands 0
  let content ← jsonIndexStr c0 "content"
  let parts ← jsonIndexStr content "parts"
  let p0 ← jsonIndexNat parts 0
  let t ← jsonIndexStr p0 "text"
  match t with
  | .str s => pure s
  | _ => .error .attributeError

/-- Characters removed by Python `str.strip()` with no argument
(ASCII whitespace; the rare further Unicode space characters do not occur in
the inputs we consider). -/
def pyIsSpace (c : Char) : Bool :=
  c = ' ' || c = '\t' || c = '\n' || c = '\r' || c = '\x0b' || c = '\x0c'

/-- Python `s.strip()`: drop leading and trailing whitespace. -/
def pyStrip (s : String) : String :=
  ⟨((s.data.dropWhile pyIsSpace).reverse.dropWhile pyIsSpace).reverse⟩

/-- Helper for `pySplitComma`: `cur` is the current fragment, reversed. -/
def splitCommaAux : List Char → List Char → List String
  | [], cur => [⟨cur.reverse⟩]
  | c :: rest, cur =>
      if c = ',' then ⟨cur.reverse⟩ :: splitCommaAux rest []
      else splitCommaAux rest (c :: cur)

/-- Python `s.split(",")`: fragments between commas, empty fragments kept
(so `"".split(",") == [""]` and `",".split(",") == ["", ""]`). -/
def pySplitComma (s : String) : List String :=
  splitCommaAux s.data []

/-- Python truthiness of a string (`if term`): true iff non-empty. -/
def pyTruthyStr (t : String) : Bool :=
  match t.data with
  | [] => false
  | _ :: _ => true

/-- The list comprehension
`[term.strip() for term in related_text.split(",") if term]`: split on
commas, drop fragments that are empty BEFORE stripping, then strip each
remaining fragment. -/
def pySplitStrip (text : String) : List String :=
  ((pySplitComma text).filter pyTruthyStr).map pyStrip

/-- Body of the `try:` block of `get_related_keywords` after a successful
request (lines 36–42 of the source): evaluate the guard; on success return
the parsed keyword list, otherwise fall through to `return [search_term]`.
Non-`RequestException` exceptions (KeyError, IndexError, …) propagate. -/
def geminiTryBody (search_term : String) (data : Json) : Except PyErr (List String) := do
  let cond ← geminiGuard data
  if cond then
    let related_text ← geminiExtract data
    pure (pySplitStrip related_text)
  else
    pure [search_term]

/-- Model of `get_related_keywords(search_term, gemini_api_key)`: `outcome` is
what the single POST to the generative API would produce. A falsy key means
no request is made and `[search_term]` is returned; a `RequestException` is
caught and also yields `[search_term]`. -/
def get_related_keywords (search_term : String) (gemini_api_key : Option String)
    (outcome : RequestOutcome) : Except PyErr (List String) :=
  if pyFalsy gemini_api_key then
    .ok [search_term]
  else
    match outcome with
    | .failure => .ok [search_term]
    | .success data => geminiTryBody search_term data

/-- A well-formed generative-API response whose nested text field is `text`:
`{"candidates": [{"content": {"parts": [{"text": text}]}}]}`. -/
def geminiResponse (text : String) : Json :=
  .obj [("candidates", .arr [.obj [("content",
      .obj [("parts", .arr [.obj [("text", .str text)]])])]])]

/-- The configuration mapping loaded by `load_config`, with the keys the
program reads. `config.get(K)` for a credential is an `Option String`
(`none` = key absent); `config.get("EXCLUDED_SITES", [])` and
`config.get("INTEXT_KEYWORDS", [])` default to `[]`, which we fold into the
field; `config.get("TOTAL_RESULTS", 50)` keeps its absence explicit. -/
structure Config where
  GEMINI_API_KEY : Option String
  GOOGLE_API_KEY : Option String
  CX : Option String
  EXCLUDED_SITES : List String
  INTEXT_KEYWORDS : List String
  TOTAL_RESULTS : Option Nat

/-- Python `sep.join(xs)`. -/
def pyJoin (sep : String) : List String → String
  | [] => ""
  | [x] => x
  | x :: y :: xs => x ++ sep ++ pyJoin sep (y :: xs)

/-- The pure part of `build_google_dorking_query` (lines 51–59 of the
source), as a function of the already-computed related-keyword list:
`f"({query_terms}) {exclusion_query} {intext_query}"`. -/
def buildQueryFrom (related_keywords excluded_sites intext_keywords : List String) : String :=
  let query_terms := pyJoin " OR " (related_keywords.map (fun kw => "\"" ++ kw ++ "\""))
  let exclusion_query := pyJoin " " (excluded_sites.map (fun site => "-site:" ++ site))
  let intext_query := pyJoin " " (intext_keywords.map (fun kw => "intext:" ++ kw))
  "(" ++ query_terms ++ ") " ++ exclusion_query ++ " " ++ intext_query

/-- Model of `build_google_dorking_query(base_keyword, config)`: `gemini` is the
outcome of the single generative-API request. An exception raised inside
`get_related_keywords` propagates. -/
def build_google_dorking_query (base_keyword : String) (config : Config)
    (gemini : RequestOutcome) : Except PyErr String :=
  match get_related_keywords base_keyword config.GEMINI_API_KEY gemini with
  | .error e => .error e
  | .ok related_keywords =>
      .ok (buildQueryFrom related_keywords config.EXCLUDED_SITES config.INTEXT_KEYWORDS)

/-- Outcome of one page request of the Custom Search API at a given start
offset. -/
inductive PageOutcome where
  | failure
  | success (data : Json)

/-- Per-page processing of a successful response (lines 93–96): if
`"items" in data`, extend the accumulator with `data["items"]`, else leave
it unchanged (a warning is logged). -/
def getPageItems (data : Json) : Except PyErr (List Json) := do
  let b ← jsonIn "items" data
  if b then
    pyIter (← jsonIndexStr data "items")
  else
    pure []

/-- The start offsets of `for start in range(1, total_results + 1,
results_per_page)`: `1, 1+ps, 1+2·ps, …` while the offset stays
`≤ total_results`. (Python raises `ValueError` on step 0; we only ever use
this with a positive step.) -/
def searchOffsets (total_results results_per_page : Nat) : List Nat :=
  (List.range ((total_results + results_per_page - 1) / results_per_page)).map
    (fun i => 1 + i * results_per_page)

/-- The pagination loop of `google_search` over the remaining offsets:
returns the offsets actually requested (in order) and either the final
accumulator or a propagating exception. A `RequestException` (`.failure`)
executes `break`, returning the accumulator so far. -/
def googleSearchLoop (pages : Nat → PageOutcome) :
    List Nat → List Json → List Nat × Except PyErr (List Json)
  | [], acc => ([], .ok acc)
  | o :: rest, acc =>
      match pages o with
      | .failure => ([o], .ok acc)
      | .success data =>
          match getPageItems data with
          | .error e => ([o], .error e)
          | .ok items =>
              let r := googleSearchLoop pages rest (acc ++ items)
              (o :: r.1, r.2)

/-- Model of `google_search(query, config, results_per_page)`: `pages` gives the
outcome of the request issued at each start offset. Returns the list of
start offsets requested and the result list (or propagating exception).
Missing or empty `GOOGLE_API_KEY`/`CX` returns `[]` with no request. -/
def google_search (query : String) (config : Config) (pages : Nat → PageOutcome)
    (results_per_page : Nat) : List Nat × Except PyErr (List Json) :=
  if pyFalsy config.GOOGLE_API_KEY || pyFalsy config.CX then
    ([], .ok [])
  else
    googleSearchLoop pages
      (searchOffsets (config.TOTAL_RESULTS.getD 50) results_per_page) []

/-- Python `item.get(key, default)`: dict lookup with default;
`AttributeError` when `item` is not a dict. -/
def pyDictGet (item : Json) (key : String) (dflt : Json) : Except PyErr Json :=
  match item with
  | .obj kvs =>
      match kvs.find? (fun kv => kv.1 = key) with
      | some kv => .ok kv.2
      | none => .ok dflt
  | _ => .error .attributeError

/-- One data row of `save_results_to_csv`:
`[item.get("title", "N/A"), item.get("link", "N/A")]`. -/
def csvRow (item : Json) : Except PyErr (List Json) := do
  let t ← pyDictGet item "title" (.str "N/A")
  let l ← pyDictGet item "link" (.str "N/A")
  pure [t, l]

/-- The `for item in results:` loop of `save_results_to_csv`: one row per
item, in order; an exception raised for an item propagates. -/
def csvRowsAux : List Json → Except PyErr (List (List Json))
  | [] => .ok []
  | item :: rest => do
      let r ← csvRow item
      let rs ← csvRowsAux rest
      pure (r :: rs)

/-- Model of `save_results_to_csv(results, filename)`: the sequence of
rows written: the header `["Title", "Link"]` followed by one row per item. -/
def save_results_to_csv (results : List Json) : Except PyErr (List (List Json)) := do
  let rows ← csvRowsAux results
  pure ([.str "Title", .str "Link"] :: rows)

/-- Observable side effects of a run that the claims talk about: the config
load and each outgoing HTTP request. -/
inductive RunEv where
  | loadConfig
  | geminiRequest
  | searchRequest (offset : Nat)
  deriving DecidableEq

/-- The external world of one run: whether the config file loads, and what
each HTTP request would return. -/
structure Env where
  config : Option Config
  gemini : RequestOutcome
  pages : Nat → PageOutcome

/-- The generative-API request is issued iff the key is truthy. -/
def geminiEvents (key : Option String) : List RunEv :=
  if pyFalsy key then [] else [.geminiRequest]

/-- Python truthiness of a list (`if search_results`). -/
def pyTruthyList (xs : List Json) : Bool :=
  match xs with
  | [] => false
  | _ :: _ => true

/-- Model of `main()` as a function of the command-line keyword and the environment:
returns the event trace (config load, HTTP requests, in order) and the
process exit code (an uncaught exception exits the interpreter with
code 1). -/
def mainRun (search_keyword_arg : String) (env : Env) : List RunEv × Nat :=
  let search_keyword := pyStrip search_keyword_arg
  if !(pyTruthyStr search_keyword) then
    ([], 1)
  else
    match env.config with
    | none => ([.loadConfig], 1)
    | some config =>
        let evs1 := RunEv.loadConfig :: geminiEvents config.GEMINI_API_KEY
        match build_google_dorking_query search_keyword config env.gemini with
        | .error _ => (evs1, 1)
        | .ok refined_query =>
            let sr := google_search refined_query config env.pages 10
            let evs2 := evs1 ++ sr.1.map RunEv.searchRequest
            match sr.2 with
            | .error _ => (evs2, 1)
            | .ok search_results =>
                if pyTruthyList search_results then
                  match save_results_to_csv search_results with
                  | .error _ => (evs2, 1)
                  | .ok _ => (evs2, 0)
                else
                  (evs2, 0)

/-- A well-formed search-API page response carrying the given items:
`{"items": items}`. -/
def pageData (items : List Json) : Json :=
  .obj [("items", .arr items)]

/-- Spec-side join ("joined by …"): interleave the separator between the
pieces and concatenate everything. -/
def specJoin (sep : String) (xs : List String) : String :=
  String.join (xs.intersperse sep)

/-- The query string as the specification words it: each expansion term
double-quoted and joined with ` OR ` inside parentheses, then the exclusion
sites each prefixed `-site:` joined by single spaces, then the required
terms each prefixed `intext:` joined by single spaces, the three groups
concatenated in that order with single-space separators (an empty group
contributes an empty segment). -/
def specDorkQuery (expansion exclusions intext : List String) : String :=
  specJoin " "
    ["(" ++ specJoin " OR " (expansion.map (fun t => "\"" ++ t ++ "\"")) ++ ")",
     specJoin " " (exclusions.map (fun s => "-site:" ++ s)),
     specJoin " " (intext.map (fun t => "intext:" ++ t))]

/-- The value placed in a CSV cell for key `key` of a dict with bindings
`kvs`: the (first) bound value, or the literal string `N/A` when the key is
absent. -/
def csvCell (kvs : List (String × Json)) (key : String) : Json :=
  match kvs.find? (fun kv => kv.1 = key) with
  | some kv => kv.2
  | none => .str "N/A"


/-! ## Helper lemmas -/

/-- Applying `getPageItems` to a well-formed page response returns exactly its items. -/
theorem getPageItems_pageData (items : List Json) :
    getPageItems (pageData items) = .ok items := rfl

/-- The pagination loop requests every offset and accumulates every page's
items when all requests succeed with well-formed responses. -/
theorem googleSearchLoop_all_ok (f : Nat → List Json) :
    ∀ (offs : List Nat) (acc : List Json),
      googleSearchLoop (fun o => .success (pageData (f o))) offs acc =
        (offs, .ok (acc ++ (offs.map f).flatten)) := by
  intro offs
  induction offs with
  | nil => intro acc; simp [googleSearchLoop]
  | cons o rest ih =>
      intro acc
      simp [googleSearchLoop, getPageItems_pageData, ih]

/-- The characters of Python's `sep.join`: the fragments with the separator
interspersed, flattened. -/
theorem pyJoin_data (sep : String) :
    ∀ xs : List String, (pyJoin sep xs).data = ((xs.intersperse sep).map String.data).flatten := by
  intro xs
  induction xs with
  | nil => rfl
  | cons x ys ih =>
      cases ys with
      | nil => simp [pyJoin]
      | cons y zs =>
          simp only [pyJoin, String.data_append, List.intersperse_cons_cons,
            List.map_cons, List.flatten_cons, ih]
          simp

/-- Python's `sep.join` agrees with the spec-side join. -/
theorem pyJoin_eq_specJoin (sep : String) (xs : List String) :
    pyJoin sep xs = specJoin sep xs := by
  apply String.ext
  simp [specJoin, String.data_join, pyJoin_data]

/-- When the response-shape condition evaluates to `False` without raising,
the `try:` body falls through to `return [search_term]`. -/
theorem geminiTryBody_guard_false (term : String) (data : Json)
    (h : geminiGuard data = .ok false) : geminiTryBody term data = .ok [term] := by
  unfold geminiTryBody
  rw [h]
  rfl

/-- A whitespace-only (or empty) string strips to the empty string. -/
theorem pyStrip_all_space (s : String) (h : s.data.all pyIsSpace = true) :
    pyStrip s = "" := by
  apply String.ext
  have hall : ∀ c ∈ s.data, pyIsSpace c := by
    simpa [List.all_eq_true] using h
  simp [pyStrip, List.dropWhile_eq_nil_iff.mpr hall]

/-! ## Claims -/

/-- C6: if the search-API key or the engine identifier is absent or empty,
`google_search` returns the empty list without issuing any HTTP request
(its request trace is empty). -/
theorem google_search_missing_creds (query : String) (config : Config)
    (pages : Nat → PageOutcome) (results_per_page : Nat)
    (h : pyFalsy config.GOOGLE_API_KEY = true ∨ pyFalsy config.CX = true) :
    google_search query config pages results_per_page = ([], .ok []) := by
  unfold google_search
  rcases h with h | h <;> simp [h]

/-- Witness for `google_search_missing_creds`: a config with no
`GOOGLE_API_KEY` at all. -/
theorem google_search_missing_creds_witness :
    google_search "q" ⟨some "gem", none, some "cx", [], [], some 50⟩
      (fun _ => .failure) 10 = ([], .ok []) :=
  google_search_missing_creds "q" _ _ 10 (Or.inl rfl)

/-- C2 counterexample: on the successful but unexpectedly shaped response
`{"candidates": []}`, `get_related_keywords` does not fall back to the
original term — the uncaught `IndexError` from `data["candidates"][0]`
propagates upward. -/
theorem get_related_keywords_empty_candidates_raises :
    get_related_keywords "APT28" (some "k")
      (.success (.obj [("candidates", .arr [])])) = .error .indexError := rfl

/-- C2 (amended): `get_related_keywords` returns exactly `[search_term]`
when the key is absent/empty, when the request itself fails
(`RequestException` caught), and when the response shape makes the
`"candidates"`/`"parts"` membership condition evaluate to `False` without
raising. (Shapes that make the condition itself raise propagate, see the
counterexample.) -/
theorem get_related_keywords_fallback (term : String) (key : Option String)
    (outcome : RequestOutcome) :
    (pyFalsy key = true → get_related_keywords term key outcome = .ok [term]) ∧
    (get_related_keywords term key .failure = .ok [term]) ∧
    (∀ data, outcome = .success data → geminiGuard data = .ok false →
      get_related_keywords term key outcome = .ok [term]) := by
  refine ⟨?_, ?_, ?_⟩
  · intro h
    simp [get_related_keywords, h]
  · unfold get_related_keywords
    cases hk : pyFalsy key <;> simp
  · intro data hdata hguard
    subst hdata
    unfold get_related_keywords
    cases hk : pyFalsy key <;>
      simp [geminiTryBody_guard_false term data hguard]

/-- Witness for `get_related_keywords_fallback`: all three fallback paths at
concrete inputs (`{}` fails the membership check without raising). -/
theorem get_related_keywords_fallback_witness :
    get_related_keywords "Lazarus" none .failure = .ok ["Lazarus"] ∧
    get_related_keywords "Lazarus" (some "k") .failure = .ok ["Lazarus"] ∧
    get_related_keywords "Lazarus" (some "k") (.success (.obj [])) = .ok ["Lazarus"] :=
  ⟨(get_related_keywords_fallback "Lazarus" none .failure).1 rfl,
   (get_related_keywords_fallback "Lazarus" (some "k") .failure).2.1,
   (get_related_keywords_fallback "Lazarus" (some "k") (.success (.obj []))).2.2
     (.obj []) rfl rfl⟩

/-- C3 counterexample: the comprehension filters fragments that are falsy
BEFORE stripping, so the whitespace-only middle fragment of `"A, ,B"`
survives and is stripped to the empty string: the returned list contains
`""`, contradicting "never contains an empty string". -/
theorem get_related_keywords_keeps_empty_fragment :
    get_related_keywords "t" (some "k") (.success (geminiResponse "A, ,B")) =
      .ok ["A", "", "B"] ∧ "" ∈ (["A", "", "B"] : List String) :=
  ⟨rfl, by simp⟩

/-- C3 (amended): for every successful well-formed response text,
`get_related_keywords` returns the text split on commas, with the fragments
that are empty before trimming dropped, and the remaining fragments
whitespace-trimmed (so whitespace-only fragments become empty strings in
the output); `"A, B ,C"` still yields `["A", "B", "C"]`. -/
theorem get_related_keywords_parses_response (term key text : String)
    (hkey : pyFalsy (some key) = false) :
    get_related_keywords term (some key) (.success (geminiResponse text)) =
      .ok (((pySplitComma text).filter pyTruthyStr).map pyStrip) := by
  unfold get_related_keywords
  rw [hkey]
  rfl

/-- Witness for `get_related_keywords_parses_response`: the spec's example
text `"A, B ,C"` parses to `["A", "B", "C"]`. -/
theorem get_related_keywords_parses_response_witness :
    get_related_keywords "APT1" (some "key") (.success (geminiResponse "A, B ,C")) =
      .ok ["A", "B", "C"] :=
  (get_related_keywords_parses_response "APT1" "key" "A, B ,C" rfl).trans rfl

/-- C10: a successful response whose text consists only of commas parses to
the empty keyword list (no fallback to the original term), and the dorking
query built from it has an empty quoted-OR group: it begins with `()`. -/
theorem empty_expansion_gives_empty_or_group :
    get_related_keywords "t" (some "k") (.success (geminiResponse ",,")) = .ok [] ∧
    build_google_dorking_query "t" ⟨some "k", some "g", some "c", ["a.com"], ["x"], some 50⟩
      (.success (geminiResponse ",,")) = .ok "() -site:a.com intext:x" ∧
    leadsWith "()".data "() -site:a.com intext:x".data = true :=
  ⟨rfl, rfl, rfl⟩

/-- C9: a command-line keyword that is empty or consists only of whitespace
makes the process exit with status 1 before the config is loaded and before
any HTTP request: the event trace of the run is empty. -/
theorem main_empty_keyword_exits (search_keyword_arg : String) (env : Env)
    (h : search_keyword_arg.data.all pyIsSpace = true) :
    mainRun search_keyword_arg env = ([], 1) := by
  unfold mainRun
  simp [pyStrip_all_space _ h, pyTruthyStr]

/-- Witness for `main_empty_keyword_exits`: a whitespace-only keyword. -/
theorem main_empty_keyword_exits_witness :
    mainRun "   " ⟨some ⟨some "k", some "g", some "c", [], [], some 50⟩,
      .failure, fun _ => .failure⟩ = ([], 1) :=
  main_empty_keyword_exits "   " _ rfl

/-- Bind on a successful `Except` computation reduces to the continuation. -/
theorem exceptBind_ok {α β : Type} (a : α) (f : α → Except PyErr β) :
    (Except.ok a : Except PyErr α) >>= f = f a := rfl

/-- Bind on a failed `Except` computation propagates the exception. -/
theorem exceptBind_error {α β : Type} (e : PyErr) (f : α → Except PyErr β) :
    (Except.error e : Except PyErr α) >>= f = .error e := rfl

/-- The three-segment spec-side join spelled out. -/
theorem specJoin_three (s x y z : String) :
    specJoin s [x, y, z] = x ++ s ++ y ++ s ++ z := by
  apply String.ext
  simp [specJoin, String.data_join, String.data_append, List.intersperse_cons_cons]

/-- C7: the dorking query is exactly the spec's three groups — quoted
expansion terms joined with ` OR ` in parentheses, `-site:` exclusions
joined by spaces, `intext:` terms joined by spaces — concatenated in that
order with single-space separators; in particular expansion `["X","Y"]`,
exclusions `["a.com"]`, intext `["malware"]` gives
`("X" OR "Y") -site:a.com intext:malware`. -/
theorem build_query_matches_spec (expansion exclusions intext : List String) :
    buildQueryFrom expansion exclusions intext =
      specDorkQuery expansion exclusions intext ∧
    buildQueryFrom ["X", "Y"] ["a.com"] ["malware"] =
      "(\"X\" OR \"Y\") -site:a.com intext:malware" := by
  constructor
  · simp only [buildQueryFrom, specDorkQuery]
    rw [specJoin_three, ← pyJoin_eq_specJoin, ← pyJoin_eq_specJoin, ← pyJoin_eq_specJoin]
    apply String.ext
    simp [String.data_append]
  · rfl

/-- One CSV data row for a dict item: the `title` and `link` cells, with
`N/A` substituted for an absent key. -/
theorem csvRow_obj (kvs : List (String × Json)) :
    csvRow (.obj kvs) = .ok [csvCell kvs "title", csvCell kvs "link"] := by
  have h : ∀ key : String, pyDictGet (.obj kvs) key (.str "N/A") = .ok (csvCell kvs key) := by
    intro key
    cases hf : kvs.find? (fun kv => kv.1 = key) <;> simp [pyDictGet, csvCell, hf]
  simp [csvRow, h, exceptBind_ok]

/-- The row sequence produced for a list of dict items. -/
theorem csvRowsAux_objs (objs : List (List (String × Json))) :
    csvRowsAux (objs.map Json.obj) =
      .ok (objs.map (fun kvs => [csvCell kvs "title", csvCell kvs "link"])) := by
  induction objs with
  | nil => rfl
  | cons kvs rest ih =>
      simp [csvRowsAux, csvRow_obj, ih, exceptBind_ok]

/-- C8: for every result list of dict items, the tabular writer writes the
header row `Title,Link` and then exactly one row per item holding its
`title` and `link` cells; a cell whose key is absent from the item holds the
literal string `N/A`. -/
theorem save_results_to_csv_rows (objs : List (List (String × Json))) :
    save_results_to_csv (objs.map Json.obj) =
      .ok ([Json.str "Title", Json.str "Link"] ::
        objs.map (fun kvs => [csvCell kvs "title", csvCell kvs "link"])) ∧
    (∀ kvs : List (String × Json), ∀ key : String,
      (∀ p ∈ kvs, p.1 ≠ key) → csvCell kvs key = .str "N/A") := by
  constructor
  · simp [save_results_to_csv, csvRowsAux_objs, exceptBind_ok]
  · intro kvs key habsent
    have hf : kvs.find? (fun kv => kv.1 = key) = none := by
      rw [List.find?_eq_none]
      intro p hp
      simpa using habsent p hp
    simp [csvCell, hf]

/-- Witness for `save_results_to_csv_rows`: an item with a `title` but no
`link` gets `N/A` in the link column. -/
theorem save_results_to_csv_rows_witness :
    save_results_to_csv [Json.obj [("title", Json.str "T")]] =
      .ok [[Json.str "Title", Json.str "Link"], [Json.str "T", Json.str "N/A"]] := by
  have h := save_results_to_csv_rows [[("title", Json.str "T")]]
  have hna := h.2 [("title", Json.str "T")] "link" (by simp)
  simpa [hna] using h.1

/-- The page index `i` is within the number of issued pages iff its start
offset `1 + i·ps` is within the total-results cap. -/
theorem offset_le_iff (total ps i : Nat) (hps : 0 < ps) :
    i < (total + ps - 1) / ps ↔ 1 + i * ps ≤ total := by
  rw [Nat.lt_iff_add_one_le, Nat.le_div_iff_mul_le hps, Nat.succ_mul]
  have h1 : 1 ≤ ps := hps
  generalize i * ps = m
  omega

/-- Membership in the offset sequence: exactly the arithmetic progression
`1, 1+ps, 1+2·ps, …` cut off at the cap. -/
theorem searchOffsets_mem (total ps o : Nat) (hps : 0 < ps) :
    o ∈ searchOffsets total ps ↔ (∃ i, o = 1 + i * ps) ∧ o ≤ total := by
  unfold searchOffsets
  simp only [List.mem_map, List.mem_range]
  constructor
  · rintro ⟨i, hi, rfl⟩
    exact ⟨⟨i, rfl⟩, (offset_le_iff total ps i hps).1 hi⟩
  · rintro ⟨⟨i, rfl⟩, hle⟩
    exact ⟨i, (offset_le_iff total ps i hps).2 hle, rfl⟩

/-- C4: with valid credentials and all requests succeeding, `google_search`
issues requests exactly at the start offsets `1, 1+ps, 1+2·ps, …` that are
`≤` the configured total-results cap (in that order). -/
theorem google_search_request_offsets (query : String) (config : Config) (ps : Nat)
    (f : Nat → List Json) (hps : 0 < ps)
    (hkey : pyFalsy config.GOOGLE_API_KEY = false) (hcx : pyFalsy config.CX = false) :
    (google_search query config (fun o => .success (pageData (f o))) ps).1 =
      searchOffsets (config.TOTAL_RESULTS.getD 50) ps ∧
    (∀ o : Nat, o ∈ searchOffsets (config.TOTAL_RESULTS.getD 50) ps ↔
      (∃ i, o = 1 + i * ps) ∧ o ≤ config.TOTAL_RESULTS.getD 50) := by
  constructor
  · simp [google_search, hkey, hcx, googleSearchLoop_all_ok]
  · intro o
    exact searchOffsets_mem _ _ _ hps

/-- Witness for `google_search_request_offsets`: total-results cap 25 and
page size 10 issue exactly 3 requests, at start offsets 1, 11 and 21. -/
theorem google_search_request_offsets_witness :
    (google_search "q" ⟨none, some "g", some "c", [], [], some 25⟩
      (fun _ => .success (pageData [])) 10).1 = [1, 11, 21] := by
  have h := google_search_request_offsets "q" ⟨none, some "g", some "c", [], [], some 25⟩
    10 (fun _ => []) (by decide) rfl rfl
  exact h.1.trans rfl

/-- If the first `k` offsets succeed with well-formed pages and the request
at offset index `k` fails, the loop requests exactly the first `k + 1`
offsets and returns the items of the `k` successful pages appended to the
accumulator. -/
theorem googleSearchLoop_fail_at (pages : Nat → PageOutcome) :
    ∀ (offs : List Nat) (k : Nat) (g : Nat → List Json) (acc : List Json),
      k < offs.length →
      (∀ j, j < k → pages (offs.getD j 0) = .success (pageData (g j))) →
      pages (offs.getD k 0) = .failure →
      googleSearchLoop pages offs acc =
        (offs.take (k + 1), .ok (acc ++ ((List.range k).map g).flatten)) := by
  intro offs
  induction offs with
  | nil =>
      intro k g acc hk
      simp at hk
  | cons o rest ih =>
      intro k g acc hk hsucc hfail
      cases k with
      | zero =>
          have h0 : pages o = .failure := hfail
          simp [googleSearchLoop, h0]
      | succ n =>
          have h0 : pages o = .success (pageData (g 0)) := hsucc 0 (Nat.succ_pos n)
          have hrest := ih n (fun j => g (j + 1)) (acc ++ g 0)
            (Nat.lt_of_succ_lt_succ hk)
            (fun j hj => hsucc (j + 1) (Nat.succ_lt_succ hj))
            hfail
          simp only [googleSearchLoop, h0, getPageItems_pageData, hrest,
            List.range_succ_eq_map, List.map_cons, List.map_map, List.flatten_cons,
            List.take_succ_cons, List.append_assoc]
          rfl

/-- The number of pages the offset sequence contains. -/
theorem searchOffsets_length (total ps : Nat) :
    (searchOffsets total ps).length = (total + ps - 1) / ps := by
  simp [searchOffsets]

/-- The `j`-th start offset is `1 + j·ps`. -/
theorem searchOffsets_getD (total ps j : Nat)
    (hj : j < (searchOffsets total ps).length) :
    (searchOffsets total ps).getD j 0 = 1 + j * ps := by
  rw [searchOffsets_length] at hj
  have h : (searchOffsets total ps)[j]? = some (1 + j * ps) := by
    simp [searchOffsets, List.getElem?_map, List.getElem?_range, hj]
  simp [List.getD, h]

/-- C5: if the requests at the first `k` offsets succeed and the request at
offset `1 + k·ps` fails, `google_search` stops at the failing request —
requesting only the first `k + 1` offsets, never a later one — and returns
exactly the items of the `k` successful pages, in order. -/
theorem google_search_stops_on_failure (query : String) (config : Config)
    (ps k : Nat) (pages : Nat → PageOutcome) (g : Nat → List Json)
    (hkey : pyFalsy config.GOOGLE_API_KEY = false) (hcx : pyFalsy config.CX = false)
    (hk : k < (searchOffsets (config.TOTAL_RESULTS.getD 50) ps).length)
    (hsucc : ∀ j, j < k → pages (1 + j * ps) = .success (pageData (g j)))
    (hfail : pages (1 + k * ps) = .failure) :
    google_search query config pages ps =
      ((List.range (k + 1)).map (fun i => 1 + i * ps),
       .ok (((List.range k).map g).flatten)) := by
  have hloop := googleSearchLoop_fail_at pages
    (searchOffsets (config.TOTAL_RESULTS.getD 50) ps) k g [] hk
    (fun j hj => by
      rw [searchOffsets_getD _ _ j (Nat.lt_trans hj hk)]
      exact hsucc j hj)
    (by rw [searchOffsets_getD _ _ k hk]; exact hfail)
  have htake : (searchOffsets (config.TOTAL_RESULTS.getD 50) ps).take (k + 1) =
      (List.range (k + 1)).map (fun i => 1 + i * ps) := by
    rw [searchOffsets_length] at hk
    simp [searchOffsets, ← List.map_take, List.take_range,
      Nat.min_eq_left (Nat.succ_le_of_lt hk)]
  simp [google_search, hkey, hcx, hloop, htake]

/-- Witness for `google_search_stops_on_failure`: with cap 25 and page
size 10, a failure on the second page (offset 11) means only offsets 1 and
11 are ever requested — no third request — and the first page's single item
is returned. -/
theorem google_search_stops_on_failure_witness :
    google_search "q" ⟨none, some "g", some "c", [], [], some 25⟩
      (fun o => if o = 1 then .success (pageData [Json.str "r1"]) else .failure) 10 =
      ([1, 11], .ok [Json.str "r1"]) := by
  have h := google_search_stops_on_failure "q" ⟨none, some "g", some "c", [], [], some 25⟩
    10 1 (fun o => if o = 1 then .success (pageData [Json.str "r1"]) else .failure)
    (fun _ => [Json.str "r1"]) rfl rfl (by decide)
    (by
      intro j hj
      have hj0 : j = 0 := by omega
      subst hj0
      rfl)
    rfl
  simpa using h

/-- C1 counterexample: cap 25, page size 10, every page carrying 10 items.
All three issued pages (offsets 1, 11, 21) succeed, and the accumulated
result holds 30 items — strictly more than the configured cap of 25. The
page-count arithmetic bounds the number of requests, not the number of
accumulated items. -/
theorem google_search_exceeds_cap :
    (google_search "q" ⟨none, some "g", some "c", [], [], some 25⟩
      (fun _ => .success (pageData (List.replicate 10 (Json.str "x")))) 10).2 =
      .ok (List.replicate 30 (Json.str "x")) ∧
    25 < (List.replicate 30 (Json.str "x")).length := by
  constructor
  · rfl
  · simp

/-- Each successful page adds at most `ps` items, so the accumulator grows
by at most `ps` per remaining offset. -/
theorem googleSearchLoop_len_le (pages : Nat → PageOutcome) (ps : Nat)
    (hpages : ∀ o, pages o = .failure ∨
      ∃ its, pages o = .success (pageData its) ∧ its.length ≤ ps) :
    ∀ (offs : List Nat) (acc r : List Json),
      (googleSearchLoop pages offs acc).2 = .ok r →
      r.length ≤ acc.length + offs.length * ps := by
  intro offs
  induction offs with
  | nil =>
      intro acc r h
      simp [googleSearchLoop] at h
      simp [← h]
  | cons o rest ih =>
      intro acc r h
      rcases hpages o with ho | ⟨its, ho, hits⟩
      · simp [googleSearchLoop, ho] at h
        simp [← h]
      · simp only [googleSearchLoop, ho, getPageItems_pageData] at h
        have hrec := ih (acc ++ its) r h
        simp only [List.length_append] at hrec
        simp only [List.length_cons, Nat.succ_mul]
        generalize rest.length * ps = m at hrec ⊢
        omega

/-- C1 (amended): when every page response carries at most `ps` items — as
the search API does for `num = ps` — the accumulated result holds at most
`⌈cap∕ps⌉ · ps` items: the cap rounded up to a full page. This bound, not
the cap itself, is what the page-count arithmetic enforces; it exceeds the
cap whenever the page size does not divide it (see the counterexample). -/
theorem google_search_results_bounded (query : String) (config : Config) (ps : Nat)
    (pages : Nat → PageOutcome)
    (hpages : ∀ o, pages o = .failure ∨
      ∃ its, pages o = .success (pageData its) ∧ its.length ≤ ps)
    (r : List Json) (hr : (google_search query config pages ps).2 = .ok r) :
    r.length ≤ ((config.TOTAL_RESULTS.getD 50 + ps - 1) / ps) * ps := by
  unfold google_search at hr
  by_cases hcred : (pyFalsy config.GOOGLE_API_KEY || pyFalsy config.CX) = true
  · rw [if_pos hcred] at hr
    have hr0 : r = [] := by simpa using hr.symm
    subst hr0
    simp
  · rw [if_neg hcred] at hr
    have h := googleSearchLoop_len_le pages ps hpages _ [] r hr
    simpa [searchOffsets_length] using h

/-- Witness for `google_search_results_bounded`: a full run at cap 25 and
page size 10 returns 30 items, within the rounded-up bound 3 · 10 = 30. -/
theorem google_search_results_bounded_witness :
    (List.replicate 30 (Json.str "y")).length ≤ ((25 + 10 - 1) / 10) * 10 := by
  have h := google_search_results_bounded "q" ⟨none, some "g", some "c", [], [], some 25⟩
    10 (fun _ => .success (pageData (List.replicate 10 (Json.str "y"))))
    (fun _ => Or.inr ⟨List.replicate 10 (Json.str "y"), rfl, by simp⟩)
    (List.replicate 30 (Json.str "y")) rfl
  exact h
